import Mathlib

/-!
Verification of the what2eat health-score engine.

The development below is a shallow embedding of the nutrition scoring code:
JavaScript numbers are modelled as `Option ℚ` (`none` standing for `NaN`,
`some q` for an exact rational idealization of a finite float), strings as
`String` and character lists, and the regex / `parseFloat` pipeline of
`parseNutritionValue` as explicit list scanning.  The main variant of the
engine (the one taking a nutrition record plus a beverage flag) is embedded
as `calculateHealthScore`; the Firestore variant of `calculateNegativePoints`
is embedded as `calculateNegativePointsV1` where the claims compare the two.
-/

namespace What2Eat

/-- A JavaScript number: `none` models `NaN`, `some q` a finite value. -/
abbrev JsNum := Option ℚ

/-- A raw nutrition-record field value as it arrives from JSON: missing
(`undefined`), `null`, a bare number, or a string. -/
inductive RawValue where
  | absent
  | null
  | num (q : ℚ)
  | str (s : String)
deriving DecidableEq, Repr

/-- JS truthiness test (`!rawValue`): `undefined`, `null`, `0` and the empty
string are falsy. -/
def isFalsy : RawValue → Bool
  | .absent => true
  | .null => true
  | .num q => q = 0
  | .str s => s.toList.isEmpty

/-- JS `a || b`: the fallback is taken exactly when `a` is falsy. -/
def jsOr (v fallback : RawValue) : RawValue := if isFalsy v then fallback else v

/-- Decimal digit characters of a natural number, most significant first. -/
def natToChars (n : ℕ) : List Char :=
  if h : n < 10 then [Char.ofNat (48 + n)]
  else natToChars (n / 10) ++ [Char.ofNat (48 + n % 10)]
termination_by n
decreasing_by exact Nat.div_lt_self (by omega) (by omega)

/-- Decimal expansion of a fractional part in `[0,1)`, with fuel. -/
def fracToChars : ℕ → ℚ → List Char
  | 0, _ => []
  | fuel + 1, r =>
    if r = 0 then []
    else Char.ofNat (48 + (⌊r * 10⌋).toNat) :: fracToChars fuel (r * 10 - ⌊r * 10⌋)

/-- Decimal rendering of a number, as produced by JS `toString` on numbers. -/
def numToChars (q : ℚ) : List Char :=
  (if q < 0 then ['-'] else [])
    ++ natToChars (⌊|q|⌋).toNat
    ++ (if (fracToChars 32 (|q| - ⌊|q|⌋)).isEmpty then []
        else '.' :: fracToChars 32 (|q| - ⌊|q|⌋))

/-- `rawValue.toString()` as a character list. -/
def rawToChars : RawValue → List Char
  | .absent => "undefined".toList
  | .null => "null".toList
  | .num q => numToChars q
  | .str s => s.toList

/-- Characters matched by the regex class `[0-9.]`. -/
def isNumChar (c : Char) : Bool := c.isDigit || c = '.'

/-- Characters matched by the regex class `[a-zA-Z%]` (ASCII letters only). -/
def isUnitChar (c : Char) : Bool := c.isAlpha || c = '%'

/-- Whitespace removed by `trim`. -/
def isWsChar (c : Char) : Bool := c = ' ' || c = '\t' || c = '\n' || c = '\r'

/-- JS `String.prototype.trim` on a character list. -/
def jsTrim (l : List Char) : List Char :=
  ((l.dropWhile isWsChar).reverse.dropWhile isWsChar).reverse

/-- First match of the regex `([0-9.]+)([a-zA-Z%]*)`: the earliest maximal
run of `[0-9.]` characters together with the following maximal run of
`[a-zA-Z%]` characters; `none` when the string has no `[0-9.]` character. -/
def findNum : List Char → Option (List Char × List Char)
  | [] => none
  | c :: cs =>
    if isNumChar c then
      some ((c :: cs).takeWhile isNumChar,
            ((c :: cs).dropWhile isNumChar).takeWhile isUnitChar)
    else findNum cs

/-- Numeric value of a list of decimal digit characters. -/
def digitsVal (l : List Char) : ℕ := l.foldl (fun a c => a * 10 + (c.toNat - 48)) 0

/-- The integer digits, fractional digits and fractional length that JS
`parseFloat` extracts from a `[0-9.]` run; `none` when no digit is found
(`parseFloat` returns `NaN`, e.g. on `"."`). -/
def parseFloatParts (l : List Char) : Option (ℕ × ℕ × ℕ) :=
  let ip := l.takeWhile Char.isDigit
  let rest := l.dropWhile Char.isDigit
  let fp := match rest with
    | '.' :: r => r.takeWhile Char.isDigit
    | _ => []
  if ip.isEmpty && fp.isEmpty then none
  else some (digitsVal ip, digitsVal fp, fp.length)

/-- Value denoted by extracted `parseFloat` parts. -/
def partsToQ (p : ℕ × ℕ × ℕ) : ℚ := (p.1 : ℚ) + (p.2.1 : ℚ) / (10 : ℚ) ^ p.2.2

/-- JS `parseFloat(matches[1])` on the matched `[0-9.]` run. -/
def parseFloatNumPart (l : List Char) : JsNum := (parseFloatParts l).map partsToQ

/-- Division of a JS number by a constant (`NaN` propagates). -/
def jsDiv (x : JsNum) (c : ℚ) : JsNum := x.map (· / c)

/-- Multiplication of a JS number by a constant (`NaN` propagates). -/
def jsMul (x : JsNum) (c : ℚ) : JsNum := x.map (· * c)

/-- JS `v > t` for a JS number `v` and a plain threshold `t`: false on `NaN`. -/
def jsGt (v : JsNum) (t : ℚ) : Bool :=
  match v with
  | some x => decide (t < x)
  | none => false

/-- JS `v >= t` for a JS number `v` and a plain threshold `t`: false on `NaN`. -/
def jsGe (v : JsNum) (t : ℚ) : Bool :=
  match v with
  | some x => decide (t ≤ x)
  | none => false

/-- The `nutrientType` labels of `parseNutritionValue`. -/
inductive NutrientType where
  | energy
  | sodium
  | mass
  | percentage
deriving DecidableEq, Repr

/-- The `switch (nutrientType)` statement of `parseNutritionValue`, applied to
the parsed magnitude and the lowercased unit. -/
def unitSwitch (nutrientType : NutrientType) (value : JsNum) (unit : List Char) : JsNum :=
  match nutrientType with
  | .energy => if unit = ['k', 'j'] then jsDiv value (4184 / 1000) else value
  | .sodium => if unit = ['g'] then jsMul value 1000 else value
  | .mass =>
    if unit = ['m', 'g'] then jsDiv value 1000
    else if unit = ['m', 'c', 'g'] then jsDiv value 1000000
    else value
  | .percentage => if unit = ['%'] then value else some 0

/-- `strValue.match(...)` applied to the trimmed string form of a raw value. -/
def matchedParts (v : RawValue) : Option (List Char × List Char) :=
  findNum (jsTrim (rawToChars v))

/-- The value normalizer `parseNutritionValue(rawValue, nutrientType)` of the
main variant. -/
def parseNutritionValue (rawValue : RawValue) (nutrientType : NutrientType) : JsNum :=
  if isFalsy rawValue then some 0
  else
    match matchedParts rawValue with
    | none => some 0
    | some (numPart, unitPart) =>
      unitSwitch nutrientType (parseFloatNumPart numPart) (unitPart.map Char.toLower)

/-- The nested custom-fields sub-mapping of a nutrition record. -/
structure CustomNutritionFields where
  saturatedFat : RawValue := .absent
deriving DecidableEq, Repr

/-- A nutrition record: the fields the scoring code reads. -/
structure NutritionRecord where
  energy : RawValue := .absent
  TotalSugars : RawValue := .absent
  sugars : RawValue := .absent
  saturatedFat : RawValue := .absent
  sodium : RawValue := .absent
  dietaryfiber : RawValue := .absent
  fiber : RawValue := .absent
  protein : RawValue := .absent
  fruitsVegetablesNuts : RawValue := .absent
  customNutritionFields : Option CustomNutritionFields := none
deriving DecidableEq, Repr

/-- Food energy thresholds (kcal/100g). -/
def foodEnergyThresholds : List ℚ := [80, 160, 240, 320, 400, 480, 560, 640, 720, 800]

/-- Food sugars thresholds (g/100g). -/
def foodSugarsThresholds : List ℚ := [4.5, 9.0, 13.5, 18.0, 22.5, 27.0, 31.0, 36.0, 40.0, 45.0]

/-- Food saturated-fat thresholds (g/100g). -/
def foodSatFatThresholds : List ℚ := [1, 2, 3, 4, 5, 6, 7, 8, 9, 10]

/-- Food sodium thresholds (mg/100g). -/
def foodSodiumThresholds : List ℚ := [90, 180, 270, 360, 450, 540, 630, 720, 810, 900]

/-- Beverage energy thresholds (per 100ml). -/
def beverageEnergyThresholds : List ℚ := [7.2, 14.3, 21.5, 28.5, 35.9, 43.0, 50.2, 57.4, 64.5]

/-- Beverage sugars thresholds. -/
def beverageSugarsThresholds : List ℚ := [0, 1.5, 3.0, 4.5, 6.0, 7.5, 9.0, 10.5, 12.0, 13.5]

/-- Beverage saturated-fat thresholds. -/
def beverageSatFatThresholds : List ℚ :=
  [0, 0.1, 0.2, 0.3, 0.4, 0.5, 0.6, 0.7, 0.8, 0.9, 1.0]

/-- Beverage sodium thresholds. -/
def beverageSodiumThresholds : List ℚ := [0, 45, 90, 135, 180, 225, 270, 315, 360, 405]

/-- `thresholds.filter(t => v > t).length`: one point per breakpoint the
value strictly exceeds. -/
def countExceeded (thresholds : List ℚ) (v : JsNum) : ℕ :=
  (thresholds.filter (fun t => jsGt v t)).length

/-- Resolved and normalized energy: `parseNutritionValue(nutrition.energy || '0', 'energy')`. -/
def normEnergy (nutrition : NutritionRecord) : JsNum :=
  parseNutritionValue (jsOr nutrition.energy (.str "0")) .energy

/-- Resolved and normalized sugars:
`parseNutritionValue(nutrition.TotalSugars || nutrition.sugars || '0', 'mass')`. -/
def normSugars (nutrition : NutritionRecord) : JsNum :=
  parseNutritionValue (jsOr nutrition.TotalSugars (jsOr nutrition.sugars (.str "0"))) .mass

/-- Resolved and normalized saturated fat:
`parseNutritionValue(nutrition.saturatedFat || '0', 'mass')`. -/
def normSatFat (nutrition : NutritionRecord) : JsNum :=
  parseNutritionValue (jsOr nutrition.saturatedFat (.str "0")) .mass

/-- Resolved and normalized sodium: `parseNutritionValue(nutrition.sodium || '0', 'sodium')`. -/
def normSodium (nutrition : NutritionRecord) : JsNum :=
  parseNutritionValue (jsOr nutrition.sodium (.str "0")) .sodium

/-- `calculateNegativePoints(nutrition, isBeverage)` of the main variant. -/
def calculateNegativePoints (nutrition : NutritionRecord) (isBeverage : Bool) : ℕ :=
  countExceeded (if isBeverage then beverageEnergyThresholds else foodEnergyThresholds)
      (normEnergy nutrition)
    + countExceeded (if isBeverage then beverageSugarsThresholds else foodSugarsThresholds)
      (normSugars nutrition)
    + countExceeded (if isBeverage then beverageSatFatThresholds else foodSatFatThresholds)
      (normSatFat nutrition)
    + countExceeded (if isBeverage then beverageSodiumThresholds else foodSodiumThresholds)
      (normSodium nutrition)

/-- Fiber thresholds (shared by food and beverage). -/
def fiberThresholds : List ℚ := [0.7, 1.4, 2.1, 2.8, 3.5]

/-- Protein thresholds (shared by food and beverage). -/
def proteinThresholds : List ℚ := [1.6, 3.2, 4.8, 6.4, 8.0]

/-- Result of `calculatePositivePoints`. -/
structure PositiveBreakdown where
  fvln : ℕ
  fiber : ℕ
  protein : ℕ
  total : ℕ
deriving DecidableEq, Repr

/-- `calculatePositivePoints(nutrition, isBeverage)` of the main variant
(the beverage flag is accepted but unused by the source). -/
def calculatePositivePoints (nutrition : NutritionRecord) (_isBeverage : Bool) :
    PositiveBreakdown :=
  let fvln := parseNutritionValue (jsOr nutrition.fruitsVegetablesNuts (.str "0")) .percentage
  let fiber :=
    parseNutritionValue (jsOr nutrition.dietaryfiber (jsOr nutrition.fiber (.str "0"))) .mass
  let protein := parseNutritionValue (jsOr nutrition.protein (.str "0")) .mass
  let fvlnPoints : ℕ :=
    if jsGe fvln 80 then 5 else if jsGe fvln 60 then 2 else if jsGe fvln 40 then 1 else 0
  let fiberPoints := countExceeded fiberThresholds fiber
  let proteinPoints := countExceeded proteinThresholds protein
  { fvln := fvlnPoints
    fiber := fiberPoints
    protein := proteinPoints
    total := fvlnPoints + fiberPoints + proteinPoints }

/-- The `calculationDetails` part of the result. -/
structure CalculationDetails where
  negativePoints : ℕ
  positivePoints : ℕ
  fsaScore : ℤ
deriving DecidableEq, Repr

/-- The full result of `calculateHealthScore`. -/
structure HealthScoreResult where
  healthScore : ℤ
  calculationDetails : CalculationDetails
deriving DecidableEq, Repr

/-- JS `Math.round`: round half toward positive infinity. -/
def jsRound (x : ℚ) : ℤ := ⌊x + 1 / 2⌋

/-- The main `calculateHealthScore(nutrition, isBeverage)` function: negative
and positive tallies, the conditional FSA-score formula, and linear
rescaling of the raw score into an inverted, clamped, rounded `[0,100]`
output. -/
def calculateHealthScore (nutrition : NutritionRecord) (isBeverage : Bool) :
    HealthScoreResult :=
  let N := calculateNegativePoints nutrition isBeverage
  let P := calculatePositivePoints nutrition isBeverage
  let fsaScore : ℤ :=
    if N < 11 then (N : ℤ) - (P.total : ℤ)
    else if P.fvln = 5 then (N : ℤ) - (P.total : ℤ)
    else (N : ℤ) - ((P.fvln + P.fiber : ℕ) : ℤ)
  let minScore : ℚ := -15
  let maxScore : ℚ := 40
  let normalized : ℚ := ((fsaScore : ℚ) - minScore) / (maxScore - minScore) * 100
  let healthScore := jsRound (100 - min 100 (max 0 normalized))
  { healthScore := healthScore
    calculationDetails :=
      { negativePoints := N
        positivePoints := P.total
        fsaScore := fsaScore } }

/-- The `fsaScore` field produced by `calculateHealthScore`. -/
def fsaScoreOf (nutrition : NutritionRecord) (isBeverage : Bool) : ℤ :=
  (calculateHealthScore nutrition isBeverage).calculationDetails.fsaScore

/-- The internal `normalized` value of `calculateHealthScore` before clamping. -/
def normalizedOf (nutrition : NutritionRecord) (isBeverage : Bool) : ℚ :=
  ((fsaScoreOf nutrition isBeverage : ℚ) - (-15)) / (40 - (-15)) * 100

/-- The `switch` statement of the Firestore variant of `parseNutritionValue`
(no `mcg` conversion on the mass family). -/
def unitSwitchV1 (nutrientType : NutrientType) (value : JsNum) (unit : List Char) : JsNum :=
  match nutrientType with
  | .energy => if unit = ['k', 'j'] then jsDiv value (4184 / 1000) else value
  | .sodium => if unit = ['g'] then jsMul value 1000 else value
  | .mass => if unit = ['m', 'g'] then jsDiv value 1000 else value
  | .percentage => if unit = ['%'] then value else some 0

/-- The Firestore variant of `parseNutritionValue`. -/
def parseNutritionValueV1 (rawValue : RawValue) (nutrientType : NutrientType) : JsNum :=
  if isFalsy rawValue then some 0
  else
    match matchedParts rawValue with
    | none => some 0
    | some (numPart, unitPart) =>
      unitSwitchV1 nutrientType (parseFloatNumPart numPart) (unitPart.map Char.toLower)

/-- The Firestore variant of `calculateNegativePoints`: saturated fat is read
from `nutrition.customNutritionFields?.saturatedFat` only, and the threshold
lists are the ones written inline in that variant. -/
def calculateNegativePointsV1 (nutrition : NutritionRecord) : ℕ :=
  countExceeded [80, 160, 240, 320, 400, 480, 560, 640, 720, 800]
      (parseNutritionValueV1 (jsOr nutrition.energy (.str "0")) .energy)
    + countExceeded [7.2, 14.3, 21.5, 28.5, 35.9, 43.0, 50.2, 57.4, 64.5]
      (parseNutritionValueV1
        (jsOr nutrition.TotalSugars (jsOr nutrition.sugars (.str "0"))) .mass)
    + countExceeded [4.5, 9.0, 13.5, 18.0, 22.5, 27.0, 31.0, 36.0, 40.0, 45.0]
      (parseNutritionValueV1
        (jsOr (match nutrition.customNutritionFields with
               | some c => c.saturatedFat
               | none => .absent) (.str "0")) .mass)
    + countExceeded [90, 180, 270, 360, 450, 540, 630, 720, 810, 900]
      (parseNutritionValueV1 (jsOr nutrition.sodium (.str "0")) .sodium)

/-! Shared evaluation and bounding lemmas. -/

/-- Evaluation rule for the normalizer at a truthy value with a regex match. -/
lemma parseNutritionValue_eval (v : RawValue) (t : NutrientType) (np up u : List Char)
    (p : ℕ × ℕ × ℕ) (q : ℚ) (h0 : isFalsy v = false)
    (h1 : matchedParts v = some (np, up)) (h2 : parseFloatParts np = some p)
    (hu : up.map Char.toLower = u) (h3 : unitSwitch t (some (partsToQ p)) u = some q) :
    parseNutritionValue v t = some q := by
  simp only [parseNutritionValue, h0, h1, parseFloatNumPart, h2, Option.map_some', hu,
    Bool.false_eq_true, if_false]
  exact h3

/-- The string `"0"` normalizes to `0` under every nutrient type. -/
lemma parse_str0 (t : NutrientType) : parseNutritionValue (.str "0") t = some 0 := by
  have h1 : matchedParts (.str "0") = some (['0'], []) := by decide
  have h2 : parseFloatParts ['0'] = some (0, 0, 0) := by decide
  cases t <;>
    exact parseNutritionValue_eval _ _ ['0'] [] [] (0, 0, 0) 0 (by decide) h1 h2 (by decide)
      (by norm_num +decide [unitSwitch, partsToQ, jsDiv, jsMul])

/-- A count of exceeded thresholds is at most the number of thresholds. -/
lemma countExceeded_le_length (L : List ℚ) (v : JsNum) : countExceeded L v ≤ L.length :=
  List.length_filter_le _ _

/-- A value of `0` exceeds no nonnegative threshold. -/
lemma countExceeded_zero (L : List ℚ) (h : ∀ t ∈ L, 0 ≤ t) :
    countExceeded L (some 0) = 0 := by
  unfold countExceeded
  rw [List.length_eq_zero, List.filter_eq_nil_iff]
  intro t ht
  simpa [jsGt] using h t ht

/-- Counting exceeded thresholds is monotone in the value. -/
lemma countExceeded_mono (L : List ℚ) {a c : ℚ} (h : a ≤ c) :
    countExceeded L (some a) ≤ countExceeded L (some c) := by
  apply List.Sublist.length_le
  apply List.monotone_filter_right
  intro t ht
  simp only [jsGt, decide_eq_true_eq] at ht ⊢
  exact lt_of_lt_of_le ht h

/-- Negative points never exceed 40, for either category. -/
lemma negativePoints_le_40 (n : NutritionRecord) (b : Bool) :
    calculateNegativePoints n b ≤ 40 := by
  cases b
  · have h1 := countExceeded_le_length foodEnergyThresholds (normEnergy n)
    have h2 := countExceeded_le_length foodSugarsThresholds (normSugars n)
    have h3 := countExceeded_le_length foodSatFatThresholds (normSatFat n)
    have h4 := countExceeded_le_length foodSodiumThresholds (normSodium n)
    rw [show foodEnergyThresholds.length = 10 from rfl] at h1
    rw [show foodSugarsThresholds.length = 10 from rfl] at h2
    rw [show foodSatFatThresholds.length = 10 from rfl] at h3
    rw [show foodSodiumThresholds.length = 10 from rfl] at h4
    simp only [calculateNegativePoints, Bool.false_eq_true, if_false]
    omega
  · have h1 := countExceeded_le_length beverageEnergyThresholds (normEnergy n)
    have h2 := countExceeded_le_length beverageSugarsThresholds (normSugars n)
    have h3 := countExceeded_le_length beverageSatFatThresholds (normSatFat n)
    have h4 := countExceeded_le_length beverageSodiumThresholds (normSodium n)
    rw [show beverageEnergyThresholds.length = 9 from rfl] at h1
    rw [show beverageSugarsThresholds.length = 10 from rfl] at h2
    rw [show beverageSatFatThresholds.length = 11 from rfl] at h3
    rw [show beverageSodiumThresholds.length = 10 from rfl] at h4
    simp only [calculateNegativePoints, if_true]
    omega

/-- The FVLN band score is one of 0, 1, 2, 5. -/
lemma fvln_cases (n : NutritionRecord) (b : Bool) :
    (calculatePositivePoints n b).fvln = 0 ∨ (calculatePositivePoints n b).fvln = 1 ∨
      (calculatePositivePoints n b).fvln = 2 ∨ (calculatePositivePoints n b).fvln = 5 := by
  simp only [calculatePositivePoints]
  split_ifs <;> simp

/-- The FVLN band score is at most 5. -/
lemma fvln_le_5 (n : NutritionRecord) (b : Bool) : (calculatePositivePoints n b).fvln ≤ 5 := by
  rcases fvln_cases n b with h | h | h | h <;> omega

/-- The fiber score is at most 5. -/
lemma fiber_le_5 (n : NutritionRecord) (b : Bool) : (calculatePositivePoints n b).fiber ≤ 5 := by
  have h := countExceeded_le_length fiberThresholds
    (parseNutritionValue (jsOr n.dietaryfiber (jsOr n.fiber (.str "0"))) .mass)
  simp [fiberThresholds] at h
  exact h

/-- The protein score is at most 5. -/
lemma protein_le_5 (n : NutritionRecord) (b : Bool) :
    (calculatePositivePoints n b).protein ≤ 5 := by
  have h := countExceeded_le_length proteinThresholds
    (parseNutritionValue (jsOr n.protein (.str "0")) .mass)
  simp [proteinThresholds] at h
  exact h

/-- The positive total is the sum of its three components. -/
lemma positive_total_eq (n : NutritionRecord) (b : Bool) :
    (calculatePositivePoints n b).total =
      (calculatePositivePoints n b).fvln + (calculatePositivePoints n b).fiber +
        (calculatePositivePoints n b).protein := rfl

/-- The positive total never exceeds 15. -/
lemma positiveTotal_le_15 (n : NutritionRecord) (b : Bool) :
    (calculatePositivePoints n b).total ≤ 15 := by
  have h := positive_total_eq n b
  have h1 := fvln_le_5 n b
  have h2 := fiber_le_5 n b
  have h3 := protein_le_5 n b
  omega

/-- The FSA-score formula, read off from `calculateHealthScore`. -/
lemma fsaScoreOf_eq (n : NutritionRecord) (b : Bool) :
    fsaScoreOf n b =
      if calculateNegativePoints n b < 11 then
        (calculateNegativePoints n b : ℤ) - ((calculatePositivePoints n b).total : ℤ)
      else if (calculatePositivePoints n b).fvln = 5 then
        (calculateNegativePoints n b : ℤ) - ((calculatePositivePoints n b).total : ℤ)
      else
        (calculateNegativePoints n b : ℤ)
          - (((calculatePositivePoints n b).fvln + (calculatePositivePoints n b).fiber : ℕ) : ℤ) :=
  rfl

/-- The negative- and positive-point fields of the result record. -/
lemma calculationDetails_eq (n : NutritionRecord) (b : Bool) :
    (calculateHealthScore n b).calculationDetails.negativePoints =
        calculateNegativePoints n b ∧
      (calculateHealthScore n b).calculationDetails.positivePoints =
        (calculatePositivePoints n b).total := ⟨rfl, rfl⟩

/-- The health score in terms of the internal normalized value. -/
lemma healthScore_eq (n : NutritionRecord) (b : Bool) :
    (calculateHealthScore n b).healthScore =
      jsRound (100 - min 100 (max 0 (normalizedOf n b))) := rfl

/-- Bounds on the FSA score. -/
lemma fsa_bounds (n : NutritionRecord) (b : Bool) :
    -15 ≤ fsaScoreOf n b ∧ fsaScoreOf n b ≤ 40 := by
  rw [fsaScoreOf_eq]
  have hN := negativePoints_le_40 n b
  have hT := positiveTotal_le_15 n b
  have hE := positive_total_eq n b
  split_ifs <;> constructor <;> omega

/-- In the cap branch with a produce score below 5, the FSA score is at least 4. -/
lemma fsa_cap_lower (n : NutritionRecord) (b : Bool)
    (h1 : 11 ≤ calculateNegativePoints n b)
    (h2 : (calculatePositivePoints n b).fvln < 5) : 4 ≤ fsaScoreOf n b := by
  rw [fsaScoreOf_eq]
  have hf := fiber_le_5 n b
  rcases fvln_cases n b with h | h | h | h <;> split_ifs <;> omega

/-- The empty record scores zero negative points in both categories. -/
lemma negPoints_empty (b : Bool) : calculateNegativePoints {} b = 0 := by
  have hE : normEnergy {} = some 0 := parse_str0 .energy
  have hS : normSugars {} = some 0 := parse_str0 .mass
  have hF : normSatFat {} = some 0 := parse_str0 .mass
  have hD : normSodium {} = some 0 := parse_str0 .sodium
  cases b
  · simp only [calculateNegativePoints, Bool.false_eq_true, if_false, hE, hS, hF, hD]
    rw [countExceeded_zero _ (by norm_num [foodEnergyThresholds]),
      countExceeded_zero _ (by norm_num [foodSugarsThresholds]),
      countExceeded_zero _ (by norm_num [foodSatFatThresholds]),
      countExceeded_zero _ (by norm_num [foodSodiumThresholds])]
  · simp only [calculateNegativePoints, if_true, hE, hS, hF, hD]
    rw [countExceeded_zero _ (by norm_num [beverageEnergyThresholds]),
      countExceeded_zero _ (by norm_num [beverageSugarsThresholds]),
      countExceeded_zero _ (by norm_num [beverageSatFatThresholds]),
      countExceeded_zero _ (by norm_num [beverageSodiumThresholds])]

/-! Claim theorems. -/

/-- C1: for every nutrition record and category flag, the result of
`calculateHealthScore` satisfies `0 ≤ healthScore ≤ 100`,
`0 ≤ negativePoints ≤ 40` and `0 ≤ positivePoints ≤ 15`; the health score is
an integer (the field has type `ℤ`, the image of `Math.round`). -/
theorem healthScore_range (n : NutritionRecord) (b : Bool) :
    (0 ≤ (calculateHealthScore n b).healthScore ∧
        (calculateHealthScore n b).healthScore ≤ 100) ∧
      (0 ≤ (calculateHealthScore n b).calculationDetails.negativePoints ∧
        (calculateHealthScore n b).calculationDetails.negativePoints ≤ 40) ∧
      (0 ≤ (calculateHealthScore n b).calculationDetails.positivePoints ∧
        (calculateHealthScore n b).calculationDetails.positivePoints ≤ 15) := by
  refine ⟨?_, ⟨Nat.zero_le _, ?_⟩, ⟨Nat.zero_le _, ?_⟩⟩
  · rw [healthScore_eq]
    have hc0 : (0 : ℚ) ≤ min 100 (max 0 (normalizedOf n b)) :=
      le_min (by norm_num) (le_max_left 0 _)
    have hc1 : min 100 (max 0 (normalizedOf n b)) ≤ 100 := min_le_left _ _
    constructor
    · simp only [jsRound]
      apply Int.le_floor.mpr
      push_cast
      linarith
    · simp only [jsRound]
      have h2 : (⌊(100 - min 100 (max 0 (normalizedOf n b))) + 1 / 2⌋ : ℤ) < 101 := by
        apply Int.floor_lt.mpr
        push_cast
        linarith
      omega
  · rw [(calculationDetails_eq n b).1]
    exact negativePoints_le_40 n b
  · rw [(calculationDetails_eq n b).2]
    exact positiveTotal_le_15 n b

/-- C2: writing `N` for the negative points and `P` for the positive
breakdown, the raw score satisfies the FSA cap rule: below the cap the full
positive total is subtracted; at or above the cap the full total is
subtracted only when the FVLN component is 5, and otherwise only the FVLN
and fiber components are subtracted (protein excluded). -/
theorem fsaScore_formula (n : NutritionRecord) (b : Bool) :
    (calculateNegativePoints n b < 11 →
        fsaScoreOf n b =
          (calculateNegativePoints n b : ℤ) - ((calculatePositivePoints n b).total : ℤ)) ∧
      (11 ≤ calculateNegativePoints n b → (calculatePositivePoints n b).fvln = 5 →
        fsaScoreOf n b =
          (calculateNegativePoints n b : ℤ) - ((calculatePositivePoints n b).total : ℤ)) ∧
      (11 ≤ calculateNegativePoints n b → (calculatePositivePoints n b).fvln < 5 →
        fsaScoreOf n b =
          (calculateNegativePoints n b : ℤ)
            - (((calculatePositivePoints n b).fvln
                  + (calculatePositivePoints n b).fiber : ℕ) : ℤ)) := by
  refine ⟨fun h1 => ?_, fun h1 h2 => ?_, fun h1 h2 => ?_⟩ <;>
    rw [fsaScoreOf_eq] <;> split_ifs <;> omega

/-- Witness for C2: the empty record takes the uncapped branch. -/
theorem fsaScore_formula_witness :
    fsaScoreOf {} false =
      (calculateNegativePoints ({} : NutritionRecord) false : ℤ)
        - ((calculatePositivePoints ({} : NutritionRecord) false).total : ℤ) :=
  (fsaScore_formula {} false).1 (by rw [negPoints_empty]; omega)

/-- C10: the raw FSA score always lies in the rescaling domain `[-15, 40]`
(and is at least 4 in the capped branch with FVLN below 5), so the clamp of
the normalized value to `[0, 100]` never changes it. -/
theorem fsa_rescale_domain (n : NutritionRecord) (b : Bool) :
    (-15 ≤ fsaScoreOf n b ∧ fsaScoreOf n b ≤ 40) ∧
      (11 ≤ calculateNegativePoints n b → (calculatePositivePoints n b).fvln < 5 →
        4 ≤ fsaScoreOf n b) ∧
      min 100 (max 0 (normalizedOf n b)) = normalizedOf n b := by
  obtain ⟨hlo, hhi⟩ := fsa_bounds n b
  refine ⟨⟨hlo, hhi⟩, fsa_cap_lower n b, ?_⟩
  have hq0 : (-15 : ℚ) ≤ (fsaScoreOf n b : ℚ) := by exact_mod_cast hlo
  have hq1 : ((fsaScoreOf n b : ℚ)) ≤ 40 := by exact_mod_cast hhi
  have hz0 : (0 : ℚ) ≤ normalizedOf n b := by
    unfold normalizedOf
    apply mul_nonneg _ (by norm_num)
    apply div_nonneg _ (by norm_num)
    linarith
  have hz1 : normalizedOf n b ≤ 100 := by
    unfold normalizedOf
    rw [div_mul_eq_mul_div, div_le_iff₀ (by norm_num)]
    linarith
  rw [max_eq_right hz0, min_eq_right hz1]

/-- A concrete record reaching the capped branch: 10 energy points plus 10
sodium points. -/
def capRecord : NutritionRecord := { energy := .str "900", sodium := .str "1000" }

/-- Negative points of `capRecord` as food. -/
lemma capRecord_neg : calculateNegativePoints capRecord false = 20 := by
  have hE : normEnergy capRecord = some 900 :=
    parseNutritionValue_eval _ _ ['9', '0', '0'] [] [] (900, 0, 0) 900 (by decide)
      (by decide) (by decide) (by decide) (by norm_num +decide [unitSwitch, partsToQ])
  have hS : normSugars capRecord = some 0 := parse_str0 .mass
  have hF : normSatFat capRecord = some 0 := parse_str0 .mass
  have hD : normSodium capRecord = some 1000 :=
    parseNutritionValue_eval _ _ ['1', '0', '0', '0'] [] [] (1000, 0, 0) 1000 (by decide)
      (by decide) (by decide) (by decide) (by norm_num +decide [unitSwitch, partsToQ])
  simp only [calculateNegativePoints, Bool.false_eq_true, if_false, hE, hS, hF, hD]
  rw [countExceeded_zero _ (by norm_num [foodSugarsThresholds]),
    countExceeded_zero _ (by norm_num [foodSatFatThresholds])]
  have h1 : countExceeded foodEnergyThresholds (some 900) = 10 := by
    norm_num [countExceeded, jsGt, foodEnergyThresholds, List.filter]
  have h2 : countExceeded foodSodiumThresholds (some 1000) = 10 := by
    norm_num [countExceeded, jsGt, foodSodiumThresholds, List.filter]
  omega

/-- FVLN points of `capRecord` as food. -/
lemma capRecord_fvln : (calculatePositivePoints capRecord false).fvln = 0 := by
  have h : parseNutritionValue (jsOr capRecord.fruitsVegetablesNuts (.str "0")) .percentage =
      some 0 := parse_str0 .percentage
  norm_num +decide [calculatePositivePoints, h, jsGe]

/-- Witness for C10 in the capped branch. -/
theorem fsa_rescale_domain_witness : 4 ≤ fsaScoreOf capRecord false :=
  (fsa_rescale_domain capRecord false).2.1 (by rw [capRecord_neg]; omega)
    (by rw [capRecord_fvln]; omega)

/-- Modelled from the claim wording for C3: food sugars breakpoints at
`4.5 * k` for `k = 1..10` (a uniform step of 4.5). -/
def claimedFoodSugarsThresholds : List ℚ :=
  [4.5 * 1, 4.5 * 2, 4.5 * 3, 4.5 * 4, 4.5 * 5, 4.5 * 6, 4.5 * 7, 4.5 * 8, 4.5 * 9, 4.5 * 10]

/-- C3 counterexample: the food sugars ladder of the code is not the uniform
`4.5 * k` ladder (its 7th and 9th entries are 31.0 and 40.0, not 31.5 and
40.5), and on a record with 31.2 g of sugars the code awards 7 points where
the claimed ladder would award 6. -/
theorem foodSugars_ladder_cx :
    foodSugarsThresholds ≠ claimedFoodSugarsThresholds ∧
      calculateNegativePoints { sugars := RawValue.str "31.2" } false = 7 ∧
      countExceeded claimedFoodSugarsThresholds
        (normSugars { sugars := RawValue.str "31.2" }) = 6 := by
  have hS : normSugars { sugars := RawValue.str "31.2" } = some 31.2 :=
    parseNutritionValue_eval _ _ ['3', '1', '.', '2'] [] [] (31, 2, 1) 31.2 (by decide)
      (by decide) (by decide) (by decide) (by norm_num +decide [unitSwitch, partsToQ])
  refine ⟨?_, ?_, ?_⟩
  · norm_num [foodSugarsThresholds, claimedFoodSugarsThresholds]
  · have hE : normEnergy { sugars := RawValue.str "31.2" } = some 0 := parse_str0 .energy
    have hF : normSatFat { sugars := RawValue.str "31.2" } = some 0 := parse_str0 .mass
    have hD : normSodium { sugars := RawValue.str "31.2" } = some 0 := parse_str0 .sodium
    simp only [calculateNegativePoints, Bool.false_eq_true, if_false, hE, hS, hF, hD]
    rw [countExceeded_zero _ (by norm_num [foodEnergyThresholds]),
      countExceeded_zero _ (by norm_num [foodSatFatThresholds]),
      countExceeded_zero _ (by norm_num [foodSodiumThresholds])]
    norm_num [countExceeded, jsGt, foodSugarsThresholds, List.filter]
  · rw [hS]
    norm_num [countExceeded, jsGt, claimedFoodSugarsThresholds, List.filter]

/-- C3 amended: when the category is food, the energy, saturated-fat and
sodium ladders are the arithmetic ladders `80k`, `k` and `90k` for
`k = 1..10` as claimed, but the sugars ladder is the explicit list
`4.5, 9, 13.5, 18, 22.5, 27, 31, 36, 40, 45` (the 7th and 9th entries break
the 4.5 step); `calculateNegativePoints` with the food flag counts, for each
of the four ladders, the breakpoints the normalized quantity strictly
exceeds. -/
theorem foodLadders_amended :
    foodEnergyThresholds =
        [80 * 1, 80 * 2, 80 * 3, 80 * 4, 80 * 5, 80 * 6, 80 * 7, 80 * 8, 80 * 9, 80 * 10] ∧
      foodSatFatThresholds = [1, 2, 3, 4, 5, 6, 7, 8, 9, 10] ∧
      foodSodiumThresholds =
        [90 * 1, 90 * 2, 90 * 3, 90 * 4, 90 * 5, 90 * 6, 90 * 7, 90 * 8, 90 * 9, 90 * 10] ∧
      foodSugarsThresholds = [4.5, 9, 13.5, 18, 22.5, 27, 31, 36, 40, 45] ∧
      ∀ r : NutritionRecord,
        calculateNegativePoints r false =
          countExceeded foodEnergyThresholds (normEnergy r)
            + countExceeded foodSugarsThresholds (normSugars r)
            + countExceeded foodSatFatThresholds (normSatFat r)
            + countExceeded foodSodiumThresholds (normSodium r) :=
  ⟨by norm_num [foodEnergyThresholds], by norm_num [foodSatFatThresholds],
    by norm_num [foodSodiumThresholds], by norm_num [foodSugarsThresholds],
    fun r => rfl⟩

/-- C4 counterexample: a `µg` suffix is not matched by the unit regex class
`[a-zA-Z%]`, so `"1µg"` normalizes to 1 (unit ignored), not to
`1 / 1000000`. -/
theorem mcg_unit_cx :
    parseNutritionValue (.str "1µg") .mass = some 1 ∧ (1 : ℚ) ≠ 1 / 1000000 := by
  constructor
  · exact parseNutritionValue_eval _ _ ['1'] [] [] (1, 0, 0) 1 (by decide)
      (by decide) (by decide) (by decide) (by norm_num +decide [unitSwitch, partsToQ])
  · norm_num

/-- C4 amended: for the mass family the normalizer divides the parsed
magnitude by 1000 for unit `mg`, by 1000000 for unit `mcg`, and otherwise
returns it as-is (a `µg` suffix is not recognized as a unit); the claimed
round trips hold: `1000mg` and `1g` both give 1, `4.184kj` gives exactly 1
kcal in the rational model, and `1g` of sodium gives 1000. -/
theorem mass_unit_conversion :
    (∀ (v : RawValue) (np up : List Char), isFalsy v = false →
        matchedParts v = some (np, up) →
        parseNutritionValue v .mass =
          (if up.map Char.toLower = ['m', 'g'] then jsDiv (parseFloatNumPart np) 1000
           else if up.map Char.toLower = ['m', 'c', 'g'] then
             jsDiv (parseFloatNumPart np) 1000000
           else parseFloatNumPart np)) ∧
      parseNutritionValue (.str "1000mg") .mass = some 1 ∧
      parseNutritionValue (.str "1g") .mass = some 1 ∧
      parseNutritionValue (.str "4.184kj") .energy = some 1 ∧
      parseNutritionValue (.str "1g") .sodium = some 1000 := by
  refine ⟨fun v np up h0 h1 => ?_, ?_, ?_, ?_, ?_⟩
  · simp only [parseNutritionValue, h0, h1, Bool.false_eq_true, if_false]
    rfl
  · exact parseNutritionValue_eval _ _ ['1', '0', '0', '0'] ['m', 'g'] ['m', 'g'] (1000, 0, 0) 1
      (by decide) (by decide) (by decide) (by decide)
      (by norm_num +decide [unitSwitch, partsToQ, jsDiv])
  · exact parseNutritionValue_eval _ _ ['1'] ['g'] ['g'] (1, 0, 0) 1 (by decide)
      (by decide) (by decide) (by decide) (by norm_num +decide [unitSwitch, partsToQ])
  · exact parseNutritionValue_eval _ _ ['4', '.', '1', '8', '4'] ['k', 'j'] ['k', 'j'] (4, 184, 3)
      1 (by decide) (by decide) (by decide) (by decide)
      (by norm_num +decide [unitSwitch, partsToQ, jsDiv])
  · exact parseNutritionValue_eval _ _ ['1'] ['g'] ['g'] (1, 0, 0) 1000 (by decide)
      (by decide) (by decide) (by decide) (by norm_num +decide [unitSwitch, partsToQ, jsMul])

/-- Witness for C4 at the input `"250mg"`. -/
theorem mass_unit_conversion_witness :
    parseNutritionValue (.str "250mg") .mass =
      (if ['m', 'g'].map Char.toLower = ['m', 'g'] then
          jsDiv (parseFloatNumPart ['2', '5', '0']) 1000
        else if ['m', 'g'].map Char.toLower = ['m', 'c', 'g'] then
          jsDiv (parseFloatNumPart ['2', '5', '0']) 1000000
        else parseFloatNumPart ['2', '5', '0']) :=
  mass_unit_conversion.1 (.str "250mg") ['2', '5', '0'] ['m', 'g'] (by decide) (by decide)

/-- The lowercased unit suffix the normalizer extracts from a raw value
(`none` when the value is falsy or the regex does not match). -/
def parsedUnit (v : RawValue) : Option (List Char) :=
  if isFalsy v then none
  else
    match matchedParts v with
    | none => none
    | some (_, up) => some (up.map Char.toLower)

/-- The magnitude the normalizer extracts from a raw value, with the zero
defaults of the falsy and no-match branches. -/
def parsedMagnitude (v : RawValue) : JsNum :=
  if isFalsy v then some 0
  else
    match matchedParts v with
    | none => some 0
    | some (np, _) => parseFloatNumPart np

/-- C5: for the percentage dimension the normalizer returns the parsed
magnitude exactly when the extracted unit suffix is `%`, and 0 for any other
or missing unit regardless of the numeric value; in particular `"80"` gives
0 and `"80%"` gives 80. -/
theorem percentage_strictness :
    (∀ v : RawValue,
        (parsedUnit v = some ['%'] →
          parseNutritionValue v .percentage = parsedMagnitude v) ∧
        (parsedUnit v ≠ some ['%'] → parseNutritionValue v .percentage = some 0)) ∧
      parseNutritionValue (.str "80") .percentage = some 0 ∧
      parseNutritionValue (.str "80%") .percentage = some 80 := by
  refine ⟨fun v => ⟨?_, ?_⟩, ?_, ?_⟩
  · intro h
    by_cases h0 : isFalsy v = true
    · simp [parsedUnit, h0] at h
    · rw [Bool.not_eq_true] at h0
      rcases hm : matchedParts v with _ | ⟨np, up⟩
      · simp [parsedUnit, h0, hm] at h
      · have hu : up.map Char.toLower = ['%'] := by
          simpa [parsedUnit, h0, hm] using h
        simp [parseNutritionValue, parsedMagnitude, h0, hm, unitSwitch, hu]
  · intro h
    by_cases h0 : isFalsy v = true
    · simp [parseNutritionValue, h0]
    · rw [Bool.not_eq_true] at h0
      rcases hm : matchedParts v with _ | ⟨np, up⟩
      · simp [parseNutritionValue, h0, hm]
      · have hu : up.map Char.toLower ≠ ['%'] := by
          simpa [parsedUnit, h0, hm] using h
        simp [parseNutritionValue, h0, hm, unitSwitch, hu]
  · exact parseNutritionValue_eval _ _ ['8', '0'] [] [] (80, 0, 0) 0 (by decide)
      (by decide) (by decide) (by decide) (by norm_num +decide [unitSwitch, partsToQ])
  · exact parseNutritionValue_eval _ _ ['8', '0'] ['%'] ['%'] (80, 0, 0) 80 (by decide)
      (by decide) (by decide) (by decide) (by norm_num +decide [unitSwitch, partsToQ])

/-- Witness for C5 at the inputs `"12%"` and `"12"`. -/
theorem percentage_strictness_witness :
    parseNutritionValue (.str "12%") .percentage = parsedMagnitude (.str "12%") ∧
      parseNutritionValue (.str "12") .percentage = some 0 :=
  ⟨(percentage_strictness.1 (.str "12%")).1 (by decide),
    (percentage_strictness.1 (.str "12")).2 (by decide)⟩

/-- C6 counterexample: on the input `"."` the regex matches a numeric run
with no digit, `parseFloat` yields `NaN`, and the normalizer returns `NaN`
(modelled as `none`), not the number 0. -/
theorem nan_propagation_cx :
    parseNutritionValue (.str ".") .mass = none ∧ (none : JsNum) ≠ some 0 := by
  constructor
  · have h0 : isFalsy (.str ".") = false := by decide
    have h1 : matchedParts (.str ".") = some (['.'], []) := by decide
    have h2 : parseFloatParts ['.'] = none := by decide
    simp [parseNutritionValue, h0, h1, parseFloatNumPart, h2, unitSwitch]
  · simp

/-- C6 amended: the normalizer is total and returns 0 on every falsy input
and on every input whose string form contains no `[0-9.]` character; the
only inputs producing `NaN` instead of 0 are those whose matched numeric run
contains no digit (such as `"."`), where `parseFloat` itself yields `NaN`. -/
theorem malformed_default_zero (v : RawValue) (t : NutrientType) :
    (isFalsy v = true → parseNutritionValue v t = some 0) ∧
      (matchedParts v = none → parseNutritionValue v t = some 0) ∧
      (parseNutritionValue v t = none →
        ∃ np up, matchedParts v = some (np, up) ∧ parseFloatParts np = none) := by
  refine ⟨fun h0 => by simp [parseNutritionValue, h0], fun hm => ?_, fun hnan => ?_⟩
  · by_cases h0 : isFalsy v = true
    · simp [parseNutritionValue, h0]
    · rw [Bool.not_eq_true] at h0
      simp [parseNutritionValue, h0, hm]
  · by_cases h0 : isFalsy v = true
    · simp [parseNutritionValue, h0] at hnan
    · rw [Bool.not_eq_true] at h0
      rcases hm : matchedParts v with _ | ⟨np, up⟩
      · simp [parseNutritionValue, h0, hm] at hnan
      · refine ⟨np, up, rfl, ?_⟩
        simp only [parseNutritionValue, h0, hm, Bool.false_eq_true, if_false] at hnan
        have hval : parseFloatNumPart np = none := by
          cases t <;> simp only [unitSwitch] at hnan <;> split_ifs at hnan <;>
            first
              | simpa [jsDiv, Option.map_eq_none'] using hnan
              | simpa [jsMul, Option.map_eq_none'] using hnan
        simpa [parseFloatNumPart, Option.map_eq_none'] using hval

/-- Witness for C6 at a string with no numeric character. -/
theorem malformed_default_zero_witness :
    parseNutritionValue (.str "abc") .mass = some 0 :=
  (malformed_default_zero (.str "abc") .mass).2.1 (by decide)

/-- C7 counterexample: in the main variant, a record carrying saturated fat
only in the nested custom-fields mapping scores 0 negative points, while the
same quantity in the top-level field scores 4, contradicting the claimed
nested-first fallback resolution. -/
theorem satFat_resolution_cx :
    calculateNegativePoints
        { customNutritionFields := some { saturatedFat := RawValue.str "5g" } } false = 0 ∧
      calculateNegativePoints { saturatedFat := RawValue.str "5g" } false = 4 := by
  constructor
  · rw [show calculateNegativePoints
        { customNutritionFields := some { saturatedFat := RawValue.str "5g" } } false =
        calculateNegativePoints {} false from rfl]
    exact negPoints_empty false
  · have hE : normEnergy { saturatedFat := RawValue.str "5g" } = some 0 := parse_str0 .energy
    have hS : normSugars { saturatedFat := RawValue.str "5g" } = some 0 := parse_str0 .mass
    have hF : normSatFat { saturatedFat := RawValue.str "5g" } = some 5 :=
      parseNutritionValue_eval _ _ ['5'] ['g'] ['g'] (5, 0, 0) 5 (by decide)
        (by decide) (by decide) (by decide) (by norm_num +decide [unitSwitch, partsToQ])
    have hD : normSodium { saturatedFat := RawValue.str "5g" } = some 0 := parse_str0 .sodium
    simp only [calculateNegativePoints, Bool.false_eq_true, if_false, hE, hS, hF, hD]
    rw [countExceeded_zero _ (by norm_num [foodEnergyThresholds]),
      countExceeded_zero _ (by norm_num [foodSugarsThresholds]),
      countExceeded_zero _ (by norm_num [foodSodiumThresholds])]
    have h1 : countExceeded foodSatFatThresholds (some 5) = 4 := by
      norm_num [countExceeded, jsGt, foodSatFatThresholds, List.filter]
    omega

/-- C7 amended: the main variant resolves saturated fat from the top-level
field only (the nested custom-fields mapping is ignored), while the
Firestore variant resolves it from the nested mapping only (the top-level
field is ignored); neither variant implements the claimed fallback chain. -/
theorem satFat_resolution_amended :
    (∀ (r : NutritionRecord) (c : Option CustomNutritionFields) (b : Bool),
        calculateNegativePoints { r with customNutritionFields := c } b =
          calculateNegativePoints r b) ∧
      (∀ (r : NutritionRecord) (v : RawValue),
        calculateNegativePointsV1 { r with saturatedFat := v } =
          calculateNegativePointsV1 r) :=
  ⟨fun _ _ _ => rfl, fun _ _ => rfl⟩

/-- C8: the scoring engine is deterministic — it is a pure function of the
nutrition record and the category flag, so identical inputs always give
identical health scores and calculation details. -/
theorem computeHealthScore_deterministic (n₁ n₂ : NutritionRecord) (b₁ b₂ : Bool)
    (hn : n₁ = n₂) (hb : b₁ = b₂) :
    calculateHealthScore n₁ b₁ = calculateHealthScore n₂ b₂ := by
  rw [hn, hb]

/-- Witness for C8 at the empty record. -/
theorem computeHealthScore_deterministic_witness :
    calculateHealthScore {} false = calculateHealthScore {} false :=
  computeHealthScore_deterministic {} {} false false rfl rfl

/-- Order on JS numbers used by the monotonicity claim: both values are
finite and the first is at most the second. -/
def jsNumLe (x y : JsNum) : Prop := ∃ a c, x = some a ∧ y = some c ∧ a ≤ c

/-- C9: negative points are monotone in each of the four penalized
nutrients: for either category, if two records agree on all fields except
the fields feeding one of energy, sugars, saturated fat or sodium, and the
normalized quantity of that nutrient does not decrease, then the negative
points do not decrease. -/
theorem negativePoints_monotone (b : Bool) (r₁ r₂ : NutritionRecord)
    (h : (r₂ = { r₁ with energy := r₂.energy } ∧
            jsNumLe (normEnergy r₁) (normEnergy r₂)) ∨
        (r₂ = { r₁ with TotalSugars := r₂.TotalSugars, sugars := r₂.sugars } ∧
          jsNumLe (normSugars r₁) (normSugars r₂)) ∨
        (r₂ = { r₁ with saturatedFat := r₂.saturatedFat } ∧
          jsNumLe (normSatFat r₁) (normSatFat r₂)) ∨
        (r₂ = { r₁ with sodium := r₂.sodium } ∧
          jsNumLe (normSodium r₁) (normSodium r₂))) :
    calculateNegativePoints r₁ b ≤ calculateNegativePoints r₂ b := by
  rcases h with ⟨he, a, c, ha, hc, hac⟩ | ⟨he, a, c, ha, hc, hac⟩ |
    ⟨he, a, c, ha, hc, hac⟩ | ⟨he, a, c, ha, hc, hac⟩
  · have h1 : normSugars r₂ = normSugars r₁ := by rw [he]; rfl
    have h2 : normSatFat r₂ = normSatFat r₁ := by rw [he]; rfl
    have h3 : normSodium r₂ = normSodium r₁ := by rw [he]; rfl
    simp only [calculateNegativePoints, h1, h2, h3, ha, hc]
    exact Nat.add_le_add (Nat.add_le_add (Nat.add_le_add
      (countExceeded_mono _ hac) le_rfl) le_rfl) le_rfl
  · have h1 : normEnergy r₂ = normEnergy r₁ := by rw [he]; rfl
    have h2 : normSatFat r₂ = normSatFat r₁ := by rw [he]; rfl
    have h3 : normSodium r₂ = normSodium r₁ := by rw [he]; rfl
    simp only [calculateNegativePoints, h1, h2, h3, ha, hc]
    exact Nat.add_le_add (Nat.add_le_add (Nat.add_le_add le_rfl
      (countExceeded_mono _ hac)) le_rfl) le_rfl
  · have h1 : normEnergy r₂ = normEnergy r₁ := by rw [he]; rfl
    have h2 : normSugars r₂ = normSugars r₁ := by rw [he]; rfl
    have h3 : normSodium r₂ = normSodium r₁ := by rw [he]; rfl
    simp only [calculateNegativePoints, h1, h2, h3, ha, hc]
    exact Nat.add_le_add (Nat.add_le_add (Nat.add_le_add le_rfl le_rfl)
      (countExceeded_mono _ hac)) le_rfl
  · have h1 : normEnergy r₂ = normEnergy r₁ := by rw [he]; rfl
    have h2 : normSugars r₂ = normSugars r₁ := by rw [he]; rfl
    have h3 : normSatFat r₂ = normSatFat r₁ := by rw [he]; rfl
    simp only [calculateNegativePoints, h1, h2, h3, ha, hc]
    exact Nat.add_le_add (Nat.add_le_add (Nat.add_le_add le_rfl le_rfl) le_rfl)
      (countExceeded_mono _ hac)

/-- Witness for C9: two records differing only in energy, 100 versus 250. -/
theorem negativePoints_monotone_witness :
    calculateNegativePoints { energy := RawValue.str "100" } false ≤
      calculateNegativePoints { energy := RawValue.str "250" } false := by
  apply negativePoints_monotone
  left
  refine ⟨rfl, 100, 250, ?_, ?_, by norm_num⟩
  · exact parseNutritionValue_eval _ _ ['1', '0', '0'] [] [] (100, 0, 0) 100 (by decide)
      (by decide) (by decide) (by decide) (by norm_num +decide [unitSwitch, partsToQ])
  · exact parseNutritionValue_eval _ _ ['2', '5', '0'] [] [] (250, 0, 0) 250 (by decide)
      (by decide) (by decide) (by decide) (by norm_num +decide [unitSwitch, partsToQ])

end What2Eat
